import Mathlib

/-!
Shallow embedding of the typed-transaction envelope and its RLP codec from
ethers-core (source files: types/transaction/eip2718.rs,
types/transaction/eip1559.rs, types/typed_transaction.rs), together with
theorems about the encoding invariants of the three transaction variants.

Machine integers (U64, U256, u8) are modelled as Nat: every arithmetic
operation the embedded code performs is either overflow-free on the source's
ranges or explicitly guarded below (the one unchecked subtraction in the
dynamic-fee signed encoder is modelled with its underflow condition made
explicit, matching the checked-arithmetic abort of the source).  Fallible
code paths (aborts such as a failed assertion, a missing expected chain id,
or an unresolved name reaching the encoder) are modelled with Option: `none`
is an abort that produces no bytes.
-/

set_option autoImplicit false

namespace EthersCore

/-- An RLP value: a byte string or a nested list of RLP values.  This is the
tree of values an RlpStream receives through its append calls. -/
inductive RlpItem : Type where
  | str : List Nat → RlpItem
  | list : List RlpItem → RlpItem

/-- Minimal big-endian byte expansion, fuel-indexed so that it reduces by
evaluation; the fuel is always sufficient because a positive number has no
more base-256 digits than its own value. -/
def beBytesAux : Nat → Nat → List Nat
  | 0, _ => []
  | fuel + 1, n => if n = 0 then [] else beBytesAux fuel (n / 256) ++ [n % 256]

/-- Minimal big-endian bytes of a natural number; zero encodes as the empty
string, and there is never a leading zero byte. -/
def beBytes (n : Nat) : List Nat :=
  beBytesAux n n

/-- RLP length header: the short form for payloads up to 55 bytes, the long
form (length of the length, then the length) above. -/
def lenHeader (offset : Nat) (len : Nat) : List Nat :=
  if len ≤ 55 then [offset + len]
  else (offset + 55 + (beBytes len).length) :: beBytes len

mutual

/-- Byte-level RLP encoding of one item: a single byte below 0x80 stands for
itself, other strings get a 0x80-based header, lists get a 0xc0-based header
over the concatenation of their elements' encodings. -/
def rlpEncode : RlpItem → List Nat
  | .str [b] => if b < 128 then [b] else [129, b]
  | .str bs => lenHeader 128 bs.length ++ bs
  | .list items => lenHeader 192 (rlpEncodeList items).length ++ rlpEncodeList items

/-- Concatenated encodings of a list of RLP items. -/
def rlpEncodeList : List RlpItem → List Nat
  | [] => []
  | i :: is => rlpEncode i ++ rlpEncodeList is

end

/-- Model of rlp::RlpStream restricted to the surface the code uses:
begin_list(n) fixes the declared arity, append adds one item, and out
produces the final bytes.  out is only well-defined when the declared arity
was honoured — the real stream aborts on an unfinished list — so it returns
none on a mismatch. -/
structure RlpStream : Type where
  declared : Nat
  items : List RlpItem

/-- A fresh stream on which begin_list(n) has been called. -/
def RlpStream.new (n : Nat) : RlpStream :=
  ⟨n, []⟩

/-- Append one already-encoded value to the open list. -/
def RlpStream.append (s : RlpStream) (i : RlpItem) : RlpStream :=
  ⟨s.declared, s.items ++ [i]⟩

/-- Finalize the stream to bytes. -/
def RlpStream.out (s : RlpStream) : Option (List Nat) :=
  if s.items.length = s.declared then some (rlpEncode (.list s.items)) else none

/-- A 20-byte account address (fixed-width byte string). -/
structure Address : Type where
  bytes : List Nat

/-- A 32-byte hash value, used for storage keys (fixed-width byte string). -/
structure H256 : Type where
  bytes : List Nat

/-- A recipient that is either a still-unresolved human-readable name or a
concrete address. -/
inductive NameOrAddress : Type where
  | name : String → NameOrAddress
  | address : Address → NameOrAddress

/-- An ECDSA recoverable signature triple. -/
structure Signature : Type where
  v : Nat
  r : Nat
  s : Nat

/-- Integer fields (U64/U256/u8) append as their minimal big-endian string. -/
def encU256 (n : Nat) : Option RlpItem :=
  some (.str (beBytes n))

/-- Byte-string fields (data) pass through unmodified, including zero-length. -/
def encBytes (d : List Nat) : Option RlpItem :=
  some (.str d)

/-- Modelled from the spec: the Encodable impl of NameOrAddress lives in
types/request.rs, which is not under src/.  Per the spec an address-or-name
field must already be resolved before encoding and encoding an unresolved
name is a hard error; a resolved address encodes as its fixed 20 bytes. -/
def encNameOrAddress : NameOrAddress → Option RlpItem
  | .name _ => none
  | .address a => some (.str a.bytes)

/-- rlp_opt of typed_transaction.rs (the transaction module uses an identical
helper): append the inner value when present, else append the RLP empty
string. -/
def rlp_opt {α : Type} (s : RlpStream) (enc : α → Option RlpItem) :
    Option α → Option RlpStream
  | some x => (enc x).map s.append
  | none => some (s.append (.str []))

/-- The item an optional integer field contributes: its minimal encoding when
present, the empty string when absent. -/
def optItem : Option Nat → RlpItem
  | some n => .str (beBytes n)
  | none => .str []

/-- The item an optional data field contributes. -/
def dataItem : Option (List Nat) → RlpItem
  | some d => .str d
  | none => .str []

/-- The item an optional, resolved to-field contributes (the name case never
reaches an item — the encoder aborts there first). -/
def toItem : Option NameOrAddress → RlpItem
  | some (.address a) => .str a.bytes
  | _ => .str []

/-- Whether an optional to-field is free of unresolved names. -/
def isResolved : Option NameOrAddress → Bool
  | some (.name _) => false
  | _ => true

namespace Eip2930

/-- One access-list entry: an address plus its ordered storage keys. -/
structure AccessListItem : Type where
  address : Address
  storage_keys : List H256

/-- Modelled from the spec: eip2930.rs is not under src/; the spec's access
list codec contract is a list of [address, [storage_key, ...]] pairs with
32-byte keys kept at fixed width. -/
def AccessListItem.rlpItem (it : AccessListItem) : RlpItem :=
  .list [.str it.address.bytes, .list (it.storage_keys.map (fun k => .str k.bytes))]

/-- The ordered access list. -/
structure AccessList : Type where
  entries : List AccessListItem

/-- Modelled from the spec: the access list encodes as the RLP list of its
entries' encodings, in caller-supplied order. -/
def AccessList.rlpItem (al : AccessList) : RlpItem :=
  .list (al.entries.map AccessListItem.rlpItem)

end Eip2930

/-- Modelled from the spec: the Encodable impl used by appending the optional
access list of eip1559.rs directly is not under src/; the spec gives the
field as a list defaulting to empty, so an absent list encodes as the empty
access list. -/
def encOptAccessList : Option Eip2930.AccessList → RlpItem
  | some al => al.rlpItem
  | none => Eip2930.AccessList.rlpItem ⟨[]⟩

/-- EIP-1559 transactions have 9 fields (NUM_TX_FIELDS of eip1559.rs). -/
def NUM_TX_FIELDS : Nat := 9

/-- Eip1559TransactionRequest of eip1559.rs: the dynamic-fee request with a
stored chain id (defaulting to 1 at the serde boundary). -/
structure Eip1559TransactionRequest : Type where
  «from» : Option Address
  «to» : Option NameOrAddress
  gas : Option Nat
  value : Option Nat
  data : Option (List Nat)
  nonce : Option Nat
  access_list : Option Eip2930.AccessList
  max_priority_fee_per_gas : Option Nat
  max_fee_per_gas : Option Nat
  chain_id : Nat

/-- rlp_base of eip1559.rs: append, in order, chainId, nonce,
maxPriorityFeePerGas, maxFeePerGas, gas, to, value, data, accessList into the
caller's open list. -/
def Eip1559TransactionRequest.rlp_base (tx : Eip1559TransactionRequest)
    (s : RlpStream) : Option RlpStream := do
  let s := s.append (.str (beBytes tx.chain_id))
  let s ← rlp_opt s encU256 tx.nonce
  let s ← rlp_opt s encU256 tx.max_priority_fee_per_gas
  let s ← rlp_opt s encU256 tx.max_fee_per_gas
  let s ← rlp_opt s encU256 tx.gas
  let s ← rlp_opt s encNameOrAddress tx.to
  let s ← rlp_opt s encU256 tx.value
  let s ← rlp_opt s encBytes tx.data
  pure (s.append (encOptAccessList tx.access_list))

/-- rlp_with_buffer of eip1559.rs: assert that the supplied chain id equals
the stored one (a failed assertion aborts the encode), then emit the
9-element unsigned list. -/
def Eip1559TransactionRequest.rlp_with_buffer (tx : Eip1559TransactionRequest)
    (chain_id : Nat) : Option (List Nat) :=
  if tx.chain_id = chain_id then do
    let s ← tx.rlp_base (RlpStream.new NUM_TX_FIELDS)
    s.out
  else none

/-- rlp_signed_with_buffer of eip1559.rs: the 12-element signed list whose
tenth element is the recovery parity signature.v - chain_id*2 - 35.  The
subtraction is unchecked u64 arithmetic in the source; its underflow aborts,
which the guard below makes explicit. -/
def Eip1559TransactionRequest.rlp_signed_with_buffer
    (tx : Eip1559TransactionRequest) (signature : Signature) :
    Option (List Nat) := do
  let s ← tx.rlp_base (RlpStream.new (NUM_TX_FIELDS + 3))
  if tx.chain_id * 2 + 35 ≤ signature.v then
    let v := signature.v - tx.chain_id * 2 - 35
    let s := s.append (.str (beBytes v))
    let s := s.append (.str (beBytes signature.r))
    let s := s.append (.str (beBytes signature.s))
    s.out
  else none

/-- Modelled from the spec: types/request.rs is not under src/; the legacy
request holds the fields the spec's data model lists for the legacy variant. -/
structure TransactionRequest : Type where
  «from» : Option Address
  «to» : Option NameOrAddress
  gas : Option Nat
  gas_price : Option Nat
  value : Option Nat
  data : Option (List Nat)
  nonce : Option Nat

/-- Modelled from the spec: the legacy base order is nonce, gasPrice, gas,
to, value, data, with absent optional fields appended as the empty string. -/
def TransactionRequest.rlp_base (tx : TransactionRequest) (s : RlpStream) :
    Option RlpStream := do
  let s ← rlp_opt s encU256 tx.nonce
  let s ← rlp_opt s encU256 tx.gas_price
  let s ← rlp_opt s encU256 tx.gas
  let s ← rlp_opt s encNameOrAddress tx.to
  let s ← rlp_opt s encU256 tx.value
  rlp_opt s encBytes tx.data

/-- Modelled from the spec: legacy unsigned encoding — the base fields, then,
only when a chain id is supplied, the chain id and two empty placeholders
standing in for r and s. -/
def TransactionRequest.rlp (tx : TransactionRequest) (chain_id : Option Nat) :
    Option (List Nat) :=
  match chain_id with
  | some cid => do
      let s ← tx.rlp_base (RlpStream.new 9)
      let s := s.append (.str (beBytes cid))
      let s := s.append (.str (beBytes 0))
      let s := s.append (.str (beBytes 0))
      s.out
  | none => do
      let s ← tx.rlp_base (RlpStream.new 6)
      s.out

/-- Modelled from the spec: the buffered legacy unsigned encode used by
eip2718.rs, with a supplied (non-optional) chain id. -/
def TransactionRequest.rlp_with_buffer (tx : TransactionRequest)
    (chain_id : Nat) : Option (List Nat) :=
  tx.rlp (some chain_id)

/-- Modelled from the spec: legacy signed encoding — the base fields then the
signature fields v, r, s taken verbatim. -/
def TransactionRequest.rlp_signed_with_buffer (tx : TransactionRequest)
    (signature : Signature) : Option (List Nat) := do
  let s ← tx.rlp_base (RlpStream.new 9)
  let s := s.append (.str (beBytes signature.v))
  let s := s.append (.str (beBytes signature.r))
  let s := s.append (.str (beBytes signature.s))
  s.out

/-- Modelled from the spec: eip2930.rs is not under src/; the access-list
request pairs a legacy request with an access list. -/
structure Eip2930TransactionRequest : Type where
  tx : TransactionRequest
  access_list : Eip2930.AccessList

/-- TypedTransaction of eip2718.rs: the closed envelope over the three
variants. -/
inductive TypedTransaction : Type where
  | Legacy : TransactionRequest → TypedTransaction
  | Eip2930 : Eip2930TransactionRequest → TypedTransaction
  | Eip1559 : Eip1559TransactionRequest → TypedTransaction

/-- The discriminator byte of a variant. -/
def TypedTransaction.tag : TypedTransaction → Nat
  | .Legacy _ => 0
  | .Eip2930 _ => 1
  | .Eip1559 _ => 2

/-- encode_signed of eip2718.rs: seed the buffer with the variant's type byte
then let the variant write its signed RLP after it.  Note the Eip2930 arm of
the source encodes inner.tx, the wrapped legacy request. -/
def TypedTransaction.encode_signed (tx : TypedTransaction)
    (signature : Signature) : Option (List Nat) :=
  match tx with
  | .Legacy inner => (inner.rlp_signed_with_buffer signature).map (fun bs => 0 :: bs)
  | .Eip2930 inner => (inner.tx.rlp_signed_with_buffer signature).map (fun bs => 1 :: bs)
  | .Eip1559 inner => (inner.rlp_signed_with_buffer signature).map (fun bs => 2 :: bs)

/-- encode_unsigned of eip2718.rs: seed the buffer with the variant's type
byte then let the variant write its unsigned RLP after it.  As in
encode_signed, the Eip2930 arm of the source encodes inner.tx. -/
def TypedTransaction.encode_unsigned (tx : TypedTransaction)
    (chain_id : Nat) : Option (List Nat) :=
  match tx with
  | .Legacy inner => (inner.rlp_with_buffer chain_id).map (fun bs => 0 :: bs)
  | .Eip2930 inner => (inner.tx.rlp_with_buffer chain_id).map (fun bs => 1 :: bs)
  | .Eip1559 inner => (inner.rlp_with_buffer chain_id).map (fun bs => 2 :: bs)

/-- sighash of eip2718.rs: keccak256 of the unsigned encoding.  The hash
primitive is external and opaque, so it is passed in as a function. -/
def TypedTransaction.sighash (keccak256 : List Nat → List Nat)
    (tx : TypedTransaction) (chain_id : Nat) : Option (List Nat) :=
  (tx.encode_unsigned chain_id).map keccak256

namespace TypedTx

/-- AccessListItem of typed_transaction.rs. -/
structure AccessListItem : Type where
  address : Address
  storage_keys : List H256

/-- The derived RlpEncodable of typed_transaction.rs appends a struct as the
list of its fields: [address, [storage_key, ...]] with keys at fixed width. -/
def AccessListItem.rlpItem (it : AccessListItem) : RlpItem :=
  .list [.str it.address.bytes, .list (it.storage_keys.map (fun k => .str k.bytes))]

/-- AccessList of typed_transaction.rs, a wrapper around the item vector. -/
structure AccessList : Type where
  entries : List AccessListItem

/-- The derived RlpEncodable on the one-field wrapper appends a one-element
list holding the item vector's list encoding. -/
def AccessList.rlpItem (al : AccessList) : RlpItem :=
  .list [.list (al.entries.map AccessListItem.rlpItem)]

/-- Modelled from the spec: SIGNED_TX_FIELDS lives in transaction/mod.rs,
which is not under src/; the legacy signed list has 9 fields (6 base plus
v, r, s). -/
def SIGNED_TX_FIELDS : Nat := 9

/-- NUM_EIP2930_FIELDS of typed_transaction.rs. -/
def NUM_EIP2930_FIELDS : Nat := SIGNED_TX_FIELDS + 1

/-- AccessListTransactionRequest of typed_transaction.rs: a legacy request
plus an access list. -/
structure AccessListTransactionRequest : Type where
  tx : TransactionRequest
  access_list : AccessList

/-- rlp of AccessListTransactionRequest: the legacy base fields, the access
list, then the supplied chain id and two zero placeholders, in a
10-element list. -/
def AccessListTransactionRequest.rlp (t : AccessListTransactionRequest)
    (chain_id : Nat) : Option (List Nat) := do
  let s ← t.tx.rlp_base (RlpStream.new NUM_EIP2930_FIELDS)
  let s := s.append t.access_list.rlpItem
  let s := s.append (.str (beBytes chain_id))
  let s := s.append (.str (beBytes 0))
  let s := s.append (.str (beBytes 0))
  s.out

/-- rlp_signed of AccessListTransactionRequest: the legacy base fields, the
access list, then v, r, s verbatim. -/
def AccessListTransactionRequest.rlp_signed (t : AccessListTransactionRequest)
    (signature : Signature) : Option (List Nat) := do
  let s ← t.tx.rlp_base (RlpStream.new NUM_EIP2930_FIELDS)
  let s := s.append t.access_list.rlpItem
  let s := s.append (.str (beBytes signature.v))
  let s := s.append (.str (beBytes signature.r))
  let s := s.append (.str (beBytes signature.s))
  s.out

/-- DynamicFeeTransactionRequest of typed_transaction.rs: no stored chain id,
required fee fields, non-optional access list. -/
structure DynamicFeeTransactionRequest : Type where
  «from» : Option Address
  «to» : Option NameOrAddress
  gas : Option Nat
  value : Option Nat
  data : Option (List Nat)
  nonce : Option Nat
  access_list : AccessList
  max_priority_fee_per_gas : Nat
  max_fee_per_gas : Nat

/-- rlp of DynamicFeeTransactionRequest: the 9-element unsigned list, with a
missing chain id appended as zero (chain_id.map_or(U64::zero(), ..)). -/
def DynamicFeeTransactionRequest.rlp (tx : DynamicFeeTransactionRequest)
    (chain_id : Option Nat) : Option (List Nat) := do
  let s := RlpStream.new 9
  let s := s.append (.str (beBytes (chain_id.getD 0)))
  let s ← rlp_opt s encU256 tx.nonce
  let s := s.append (.str (beBytes tx.max_priority_fee_per_gas))
  let s := s.append (.str (beBytes tx.max_fee_per_gas))
  let s ← rlp_opt s encU256 tx.gas
  let s ← rlp_opt s encNameOrAddress tx.to
  let s ← rlp_opt s encU256 tx.value
  let s ← rlp_opt s encBytes tx.data
  let s := s.append tx.access_list.rlpItem
  s.out

/-- rlp_signed of DynamicFeeTransactionRequest: the 12-element signed list;
the signature fields v, r, s are appended verbatim (v is not reduced to a
recovery parity here, although the doc comment of the source calls the field
signatureYParity). -/
def DynamicFeeTransactionRequest.rlp_signed (tx : DynamicFeeTransactionRequest)
    (chain_id : Option Nat) (signature : Signature) : Option (List Nat) := do
  let s := RlpStream.new (9 + 3)
  let s := s.append (.str (beBytes (chain_id.getD 0)))
  let s ← rlp_opt s encU256 tx.nonce
  let s := s.append (.str (beBytes tx.max_priority_fee_per_gas))
  let s := s.append (.str (beBytes tx.max_fee_per_gas))
  let s ← rlp_opt s encU256 tx.gas
  let s ← rlp_opt s encNameOrAddress tx.to
  let s ← rlp_opt s encU256 tx.value
  let s ← rlp_opt s encBytes tx.data
  let s := s.append tx.access_list.rlpItem
  let s := s.append (.str (beBytes signature.v))
  let s := s.append (.str (beBytes signature.r))
  let s := s.append (.str (beBytes signature.s))
  s.out

/-- TransactionEnvelope of typed_transaction.rs. -/
inductive TransactionEnvelope : Type where
  | Legacy : TransactionRequest → TransactionEnvelope
  | AccessList : AccessListTransactionRequest → TransactionEnvelope
  | DynamicFee : DynamicFeeTransactionRequest → TransactionEnvelope

/-- sighash of TransactionEnvelope: hash the type byte followed by the
variant's unsigned RLP; the AccessList arm calls expect on the optional
chain id, so a missing chain id there is a hard failure before any hashing. -/
def TransactionEnvelope.sighash (keccak256 : List Nat → List Nat)
    (env : TransactionEnvelope) (chain_id : Option Nat) : Option (List Nat) :=
  match env with
  | .Legacy tx => (tx.rlp chain_id).map (fun bs => keccak256 (0 :: bs))
  | .AccessList tx =>
      match chain_id with
      | some cid => (tx.rlp cid).map (fun bs => keccak256 (1 :: bs))
      | none => none
  | .DynamicFee tx => (tx.rlp chain_id).map (fun bs => keccak256 (2 :: bs))

end TypedTx

/-! Helper lemmas: closed forms of the append chains. -/

theorem rlp_opt_int (s : RlpStream) (o : Option Nat) :
    rlp_opt s encU256 o = some (s.append (optItem o)) := by
  cases o <;> rfl

theorem rlp_opt_bytes (s : RlpStream) (o : Option (List Nat)) :
    rlp_opt s encBytes o = some (s.append (dataItem o)) := by
  cases o <;> rfl

theorem rlp_opt_addr (s : RlpStream) (o : Option NameOrAddress)
    (h : isResolved o = true) :
    rlp_opt s encNameOrAddress o = some (s.append (toItem o)) := by
  match o with
  | none => rfl
  | some (.address a) => rfl
  | some (.name nm) => simp [isResolved] at h

theorem rlp_opt_name (s : RlpStream) (nm : String) :
    rlp_opt s encNameOrAddress (some (.name nm)) = none := rfl

theorem isResolved_or_name (o : Option NameOrAddress) :
    isResolved o = true ∨ ∃ nm, o = some (.name nm) := by
  match o with
  | none => exact Or.inl rfl
  | some (.address a) => exact Or.inl rfl
  | some (.name nm) => exact Or.inr ⟨nm, rfl⟩

/-- The nine items the dynamic-fee base encoder of eip1559.rs appends, in
order. -/
def eip1559BaseItems (tx : Eip1559TransactionRequest) : List RlpItem :=
  [.str (beBytes tx.chain_id), optItem tx.nonce,
   optItem tx.max_priority_fee_per_gas, optItem tx.max_fee_per_gas,
   optItem tx.gas, toItem tx.to, optItem tx.value, dataItem tx.data,
   encOptAccessList tx.access_list]

theorem eip1559_rlp_base_resolved (tx : Eip1559TransactionRequest)
    (s : RlpStream) (h : isResolved tx.to = true) :
    tx.rlp_base s = some ⟨s.declared, s.items ++ eip1559BaseItems tx⟩ := by
  simp [Eip1559TransactionRequest.rlp_base, rlp_opt_int, rlp_opt_bytes,
    rlp_opt_addr _ _ h, RlpStream.append, eip1559BaseItems]

theorem eip1559_rlp_base_name (tx : Eip1559TransactionRequest) (s : RlpStream)
    (nm : String) (h : tx.to = some (.name nm)) :
    tx.rlp_base s = none := by
  simp [Eip1559TransactionRequest.rlp_base, rlp_opt_int, rlp_opt_bytes, h,
    rlp_opt, encNameOrAddress]

theorem eip1559_rlp_with_buffer_resolved (tx : Eip1559TransactionRequest)
    (h : isResolved tx.to = true) :
    tx.rlp_with_buffer tx.chain_id
      = some (rlpEncode (.list (eip1559BaseItems tx))) := by
  simp [Eip1559TransactionRequest.rlp_with_buffer,
    eip1559_rlp_base_resolved _ _ h, RlpStream.new, RlpStream.out,
    eip1559BaseItems, NUM_TX_FIELDS]

theorem eip1559_rlp_signed_resolved (tx : Eip1559TransactionRequest)
    (sig : Signature) (hv : tx.chain_id * 2 + 35 ≤ sig.v)
    (h : isResolved tx.to = true) :
    tx.rlp_signed_with_buffer sig
      = some (rlpEncode (.list (eip1559BaseItems tx
          ++ [.str (beBytes (sig.v - tx.chain_id * 2 - 35)),
              .str (beBytes sig.r), .str (beBytes sig.s)]))) := by
  simp [Eip1559TransactionRequest.rlp_signed_with_buffer,
    eip1559_rlp_base_resolved _ _ h, RlpStream.new, RlpStream.append,
    RlpStream.out, eip1559BaseItems, NUM_TX_FIELDS, hv]

theorem eip1559_rlp_signed_underflow (tx : Eip1559TransactionRequest)
    (sig : Signature) (hv : sig.v < tx.chain_id * 2 + 35) :
    tx.rlp_signed_with_buffer sig = none := by
  rcases isResolved_or_name tx.to with h | ⟨nm, h⟩
  · simp [Eip1559TransactionRequest.rlp_signed_with_buffer,
      eip1559_rlp_base_resolved _ _ h, Nat.not_le.mpr hv]
  · simp [Eip1559TransactionRequest.rlp_signed_with_buffer,
      eip1559_rlp_base_name tx _ nm h]

/-- The six items the legacy base encoder appends, in order. -/
def legacyBaseItems (tx : TransactionRequest) : List RlpItem :=
  [optItem tx.nonce, optItem tx.gas_price, optItem tx.gas, toItem tx.to,
   optItem tx.value, dataItem tx.data]

theorem legacy_rlp_base_resolved (tx : TransactionRequest) (s : RlpStream)
    (h : isResolved tx.to = true) :
    tx.rlp_base s = some ⟨s.declared, s.items ++ legacyBaseItems tx⟩ := by
  simp [TransactionRequest.rlp_base, rlp_opt_int, rlp_opt_bytes,
    rlp_opt_addr _ _ h, RlpStream.append, legacyBaseItems]

theorem legacy_rlp_base_name (tx : TransactionRequest) (s : RlpStream)
    (nm : String) (h : tx.to = some (.name nm)) :
    tx.rlp_base s = none := by
  simp [TransactionRequest.rlp_base, rlp_opt_int, rlp_opt_bytes, h,
    rlp_opt, encNameOrAddress]

theorem legacy_rlp_some_resolved (tx : TransactionRequest) (cid : Nat)
    (h : isResolved tx.to = true) :
    tx.rlp (some cid) = some (rlpEncode (.list (legacyBaseItems tx
      ++ [.str (beBytes cid), .str (beBytes 0), .str (beBytes 0)]))) := by
  simp [TransactionRequest.rlp, legacy_rlp_base_resolved _ _ h,
    RlpStream.new, RlpStream.append, RlpStream.out, legacyBaseItems]

/-- The nine items the dynamic-fee encoder of typed_transaction.rs appends,
in order. -/
def ttDynItems (tx : TypedTx.DynamicFeeTransactionRequest)
    (cid : Option Nat) : List RlpItem :=
  [.str (beBytes (cid.getD 0)), optItem tx.nonce,
   .str (beBytes tx.max_priority_fee_per_gas),
   .str (beBytes tx.max_fee_per_gas), optItem tx.gas, toItem tx.to,
   optItem tx.value, dataItem tx.data, tx.access_list.rlpItem]

theorem ttdyn_rlp_resolved (tx : TypedTx.DynamicFeeTransactionRequest)
    (cid : Option Nat) (h : isResolved tx.to = true) :
    tx.rlp cid = some (rlpEncode (.list (ttDynItems tx cid))) := by
  simp [TypedTx.DynamicFeeTransactionRequest.rlp, rlp_opt_int, rlp_opt_bytes,
    rlp_opt_addr _ _ h, RlpStream.new, RlpStream.append, RlpStream.out,
    ttDynItems]

theorem ttdyn_rlp_name (tx : TypedTx.DynamicFeeTransactionRequest)
    (cid : Option Nat) (nm : String) (h : tx.to = some (.name nm)) :
    tx.rlp cid = none := by
  simp [TypedTx.DynamicFeeTransactionRequest.rlp, rlp_opt_int, rlp_opt_bytes,
    h, rlp_opt, encNameOrAddress]

theorem ttdyn_rlp_signed_resolved (tx : TypedTx.DynamicFeeTransactionRequest)
    (cid : Option Nat) (sig : Signature) (h : isResolved tx.to = true) :
    tx.rlp_signed cid sig = some (rlpEncode (.list (ttDynItems tx cid
      ++ [.str (beBytes sig.v), .str (beBytes sig.r),
          .str (beBytes sig.s)]))) := by
  simp [TypedTx.DynamicFeeTransactionRequest.rlp_signed, rlp_opt_int,
    rlp_opt_bytes, rlp_opt_addr _ _ h, RlpStream.new, RlpStream.append,
    RlpStream.out, ttDynItems]

theorem ttal_rlp_resolved (t : TypedTx.AccessListTransactionRequest)
    (cid : Nat) (h : isResolved t.tx.to = true) :
    t.rlp cid = some (rlpEncode (.list (legacyBaseItems t.tx
      ++ [t.access_list.rlpItem, .str (beBytes cid), .str (beBytes 0),
          .str (beBytes 0)]))) := by
  simp [TypedTx.AccessListTransactionRequest.rlp,
    legacy_rlp_base_resolved _ _ h, RlpStream.new, RlpStream.append,
    RlpStream.out, legacyBaseItems, TypedTx.NUM_EIP2930_FIELDS,
    TypedTx.SIGNED_TX_FIELDS]

/-- A cons-prefixed optional byte list starts with the prefixed byte. -/
theorem map_cons_head (o : Option (List Nat)) (k : Nat) (bs : List Nat)
    (h : o.map (fun l => k :: l) = some bs) : bs.head? = some k := by
  cases o with
  | none => simp at h
  | some x =>
      simp only [Option.map_some', Option.some.injEq] at h
      rw [← h]
      rfl

/-! Concrete example values used by the witness theorems. -/

/-- A concrete 20-byte address. -/
def addrEx : Address :=
  ⟨[1, 2, 3, 4, 5, 6, 7, 8, 9, 10, 11, 12, 13, 14, 15, 16, 17, 18, 19, 20]⟩

/-- A legacy request with every optional field absent. -/
def legacyEx : TransactionRequest :=
  ⟨none, none, none, none, none, none, none⟩

/-- An eip1559.rs dynamic-fee request with every optional field absent and
stored chain id 5. -/
def e1559Ex : Eip1559TransactionRequest :=
  ⟨none, none, none, none, none, none, none, none, none, 5⟩

/-- An eip1559.rs dynamic-fee request with every optional field present. -/
def e1559Ex2 : Eip1559TransactionRequest :=
  ⟨none, some (.address addrEx), some 100000, some 10, some [85, 68], some 2,
   some ⟨[]⟩, some 3, some 4, 5⟩

/-- The stream state after the base encoder has run on e1559Ex. -/
def e1559ExStream : RlpStream :=
  ⟨9, eip1559BaseItems e1559Ex⟩

/-- A typed_transaction.rs dynamic-fee request with every optional field
absent. -/
def ttdynEx : TypedTx.DynamicFeeTransactionRequest :=
  ⟨none, none, none, none, none, none, ⟨[]⟩, 0, 0⟩

/-- A typed_transaction.rs dynamic-fee request with every optional field
present. -/
def ttdynEx2 : TypedTx.DynamicFeeTransactionRequest :=
  ⟨none, some (.address addrEx), some 5, some 6, some [171], some 1, ⟨[]⟩, 2, 3⟩

/-- A typed_transaction.rs access-list request. -/
def alTxEx : TypedTx.AccessListTransactionRequest :=
  ⟨legacyEx, ⟨[]⟩⟩

/-- An eip2930 wrapper around the empty legacy request. -/
def e2930Ex : Eip2930TransactionRequest :=
  ⟨legacyEx, ⟨[]⟩⟩

/-! The claims. -/

/-- Claim C1: for every typed-transaction envelope and every chain id,
sighash(chain_id) is exactly the hash of encode_unsigned(chain_id); and on
the TransactionEnvelope type every variant's sighash likewise applies the
hash exactly once, to the discriminator-prefixed unsigned encoding, so no
variant has any other hashing path. -/
theorem sighash_single_hash_path :
    (∀ (keccak256 : List Nat → List Nat) (tx : TypedTransaction) (cid : Nat),
        TypedTransaction.sighash keccak256 tx cid
          = (tx.encode_unsigned cid).map keccak256)
    ∧ (∀ (keccak256 : List Nat → List Nat) (tx : TransactionRequest)
          (cid : Option Nat),
        TypedTx.TransactionEnvelope.sighash keccak256 (.Legacy tx) cid
          = (tx.rlp cid).map (fun bs => keccak256 (0 :: bs)))
    ∧ (∀ (keccak256 : List Nat → List Nat)
          (tx : TypedTx.AccessListTransactionRequest) (cid : Nat),
        TypedTx.TransactionEnvelope.sighash keccak256 (.AccessList tx) (some cid)
          = (tx.rlp cid).map (fun bs => keccak256 (1 :: bs)))
    ∧ (∀ (keccak256 : List Nat → List Nat)
          (tx : TypedTx.DynamicFeeTransactionRequest) (cid : Option Nat),
        TypedTx.TransactionEnvelope.sighash keccak256 (.DynamicFee tx) cid
          = (tx.rlp cid).map (fun bs => keccak256 (2 :: bs))) :=
  ⟨fun _ _ _ => rfl, fun _ _ _ => rfl, fun _ _ _ => rfl, fun _ _ _ => rfl⟩

/-- Claim C2 (code evaluation): the dynamic-fee signed encoder of
typed_transaction.rs appends signature.v verbatim.  At chain id 1 with the
EIP-155-style v = 2*1 + 36 = 38, the recovery-parity position (element 10 of
the list, byte 11 of the output) holds 38, not the parity 1 the claim (and
the function's own doc comment) requires. -/
theorem dynamicfee_v_verbatim_eval :
    TypedTx.DynamicFeeTransactionRequest.rlp_signed ttdynEx (some 1) ⟨38, 1, 1⟩
      = some [205, 1, 128, 128, 128, 128, 128, 128, 128, 193, 192, 38, 1, 1]
    ∧ ([205, 1, 128, 128, 128, 128, 128, 128, 128, 193, 192, 38, 1, 1]
        : List Nat).get? 11 = some 38 :=
  ⟨rfl, rfl⟩

/-- Claim C3: on the buffered unsigned-encode entry point of eip1559.rs, a
supplied chain id different from the stored one aborts with no bytes, and an
equal one succeeds (given the spec's precondition that the to-field holds no
unresolved name). -/
theorem chain_id_mismatch_hard_failure :
    (∀ (tx : Eip1559TransactionRequest) (cid : Nat), tx.chain_id ≠ cid →
        tx.rlp_with_buffer cid = none)
    ∧ (∀ (tx : Eip1559TransactionRequest), isResolved tx.to = true →
        (tx.rlp_with_buffer tx.chain_id).isSome = true) := by
  constructor
  · intro tx cid h
    simp [Eip1559TransactionRequest.rlp_with_buffer, h]
  · intro tx h
    simp [eip1559_rlp_with_buffer_resolved tx h]

/-- Witness for C3 at a concrete request with stored chain id 5. -/
theorem chain_id_mismatch_hard_failure_inst :
    e1559Ex.rlp_with_buffer 7 = none
      ∧ (e1559Ex.rlp_with_buffer 5).isSome = true :=
  ⟨chain_id_mismatch_hard_failure.1 e1559Ex 7 (by decide),
   chain_id_mismatch_hard_failure.2 e1559Ex rfl⟩

/-- Claim C4: encode_unsigned and encode_signed of eip2718.rs prepend one
discriminator byte before the variant's RLP bytes: 0 for Legacy, 1 for
Eip2930, 2 for Eip1559. -/
theorem type_discriminator_byte :
    (∀ (tx : TypedTransaction) (cid : Nat) (bs : List Nat),
        tx.encode_unsigned cid = some bs → bs.head? = some tx.tag)
    ∧ (∀ (tx : TypedTransaction) (sig : Signature) (bs : List Nat),
        tx.encode_signed sig = some bs → bs.head? = some tx.tag)
    ∧ (∀ t, (TypedTransaction.Legacy t).tag = 0)
    ∧ (∀ t, (TypedTransaction.Eip2930 t).tag = 1)
    ∧ (∀ t, (TypedTransaction.Eip1559 t).tag = 2) := by
  refine ⟨?_, ?_, fun _ => rfl, fun _ => rfl, fun _ => rfl⟩
  · intro tx cid bs h
    cases tx with
    | Legacy inner => exact map_cons_head _ 0 bs h
    | Eip2930 inner => exact map_cons_head _ 1 bs h
    | Eip1559 inner => exact map_cons_head _ 2 bs h
  · intro tx sig bs h
    cases tx with
    | Legacy inner => exact map_cons_head _ 0 bs h
    | Eip2930 inner => exact map_cons_head _ 1 bs h
    | Eip1559 inner => exact map_cons_head _ 2 bs h

/-- Witness for C4 on concrete encodings of all three variants. -/
theorem type_discriminator_byte_inst :
    ([0, 201, 128, 128, 128, 128, 128, 128, 1, 128, 128]
        : List Nat).head? = some (TypedTransaction.Legacy legacyEx).tag
    ∧ ([1, 201, 128, 128, 128, 128, 128, 128, 1, 128, 128]
        : List Nat).head? = some (TypedTransaction.Eip2930 e2930Ex).tag
    ∧ ([2, 201, 5, 128, 128, 128, 128, 128, 128, 128, 192]
        : List Nat).head? = some (TypedTransaction.Eip1559 e1559Ex).tag
    ∧ ([2, 204, 5, 128, 128, 128, 128, 128, 128, 128, 192, 128, 1, 1]
        : List Nat).head? = some (TypedTransaction.Eip1559 e1559Ex).tag :=
  ⟨type_discriminator_byte.1 (.Legacy legacyEx) 1 _ rfl,
   type_discriminator_byte.1 (.Eip2930 e2930Ex) 1 _ rfl,
   type_discriminator_byte.1 (.Eip1559 e1559Ex) 5 _ rfl,
   type_discriminator_byte.2.1 (.Eip1559 e1559Ex) ⟨45, 1, 1⟩ _ rfl⟩

/-- Claim C5: the RLP list of a dynamic-fee unsigned encoding always has
exactly 9 elements, whatever optional fields are present; an absent optional
field contributes the empty-string item at its fixed position (never an
empty-list item, never a shortened list), and finalization succeeds at the
declared arity.  Stated for both dynamic-fee encoders. -/
theorem dynamicfee_arity_nine :
    (∀ (tx : Eip1559TransactionRequest) (sOut : RlpStream),
        tx.rlp_base (RlpStream.new NUM_TX_FIELDS) = some sOut →
          sOut.items.length = 9
          ∧ (tx.nonce = none → sOut.items.get? 1 = some (.str []))
          ∧ (tx.max_priority_fee_per_gas = none →
              sOut.items.get? 2 = some (.str []))
          ∧ (tx.max_fee_per_gas = none → sOut.items.get? 3 = some (.str []))
          ∧ (tx.gas = none → sOut.items.get? 4 = some (.str []))
          ∧ (tx.to = none → sOut.items.get? 5 = some (.str []))
          ∧ (tx.value = none → sOut.items.get? 6 = some (.str []))
          ∧ (tx.data = none → sOut.items.get? 7 = some (.str []))
          ∧ sOut.out = some (rlpEncode (.list sOut.items)))
    ∧ (∀ (tx : TypedTx.DynamicFeeTransactionRequest) (cid : Option Nat)
          (bs : List Nat), tx.rlp cid = some bs →
          ∃ items : List RlpItem, bs = rlpEncode (.list items)
            ∧ items.length = 9
            ∧ (tx.nonce = none → items.get? 1 = some (.str []))
            ∧ (tx.gas = none → items.get? 4 = some (.str []))
            ∧ (tx.to = none → items.get? 5 = some (.str []))
            ∧ (tx.value = none → items.get? 6 = some (.str []))
            ∧ (tx.data = none → items.get? 7 = some (.str []))) := by
  constructor
  · intro tx sOut h
    rcases isResolved_or_name tx.to with hres | ⟨nm, hnm⟩
    · rw [eip1559_rlp_base_resolved _ _ hres] at h
      have hs := (Option.some.inj h).symm
      subst hs
      refine ⟨by simp [RlpStream.new, eip1559BaseItems], ?_, ?_, ?_, ?_, ?_,
        ?_, ?_, ?_⟩
      · intro h0
        simp [RlpStream.new, eip1559BaseItems, h0, optItem]
      · intro h0
        simp [RlpStream.new, eip1559BaseItems, h0, optItem]
      · intro h0
        simp [RlpStream.new, eip1559BaseItems, h0, optItem]
      · intro h0
        simp [RlpStream.new, eip1559BaseItems, h0, optItem]
      · intro h0
        simp [RlpStream.new, eip1559BaseItems, h0, toItem]
      · intro h0
        simp [RlpStream.new, eip1559BaseItems, h0, optItem]
      · intro h0
        simp [RlpStream.new, eip1559BaseItems, h0, dataItem]
      · simp [RlpStream.out, RlpStream.new, eip1559BaseItems, NUM_TX_FIELDS]
    · rw [eip1559_rlp_base_name tx _ nm hnm] at h
      simp at h
  · intro tx cid bs h
    rcases isResolved_or_name tx.to with hres | ⟨nm, hnm⟩
    · rw [ttdyn_rlp_resolved tx cid hres] at h
      refine ⟨ttDynItems tx cid, (Option.some.inj h).symm,
        by simp [ttDynItems], ?_, ?_, ?_, ?_, ?_⟩
      · intro h0
        simp [ttDynItems, h0, optItem]
      · intro h0
        simp [ttDynItems, h0, optItem]
      · intro h0
        simp [ttDynItems, h0, toItem]
      · intro h0
        simp [ttDynItems, h0, optItem]
      · intro h0
        simp [ttDynItems, h0, dataItem]
    · rw [ttdyn_rlp_name tx cid nm hnm] at h
      simp at h

/-- Witness for C5 at two concrete all-absent requests. -/
theorem dynamicfee_arity_nine_inst :
    (e1559ExStream.items.length = 9
      ∧ (e1559Ex.nonce = none → e1559ExStream.items.get? 1 = some (.str []))
      ∧ (e1559Ex.max_priority_fee_per_gas = none →
          e1559ExStream.items.get? 2 = some (.str []))
      ∧ (e1559Ex.max_fee_per_gas = none →
          e1559ExStream.items.get? 3 = some (.str []))
      ∧ (e1559Ex.gas = none → e1559ExStream.items.get? 4 = some (.str []))
      ∧ (e1559Ex.to = none → e1559ExStream.items.get? 5 = some (.str []))
      ∧ (e1559Ex.value = none → e1559ExStream.items.get? 6 = some (.str []))
      ∧ (e1559Ex.data = none → e1559ExStream.items.get? 7 = some (.str []))
      ∧ e1559ExStream.out = some (rlpEncode (.list e1559ExStream.items)))
    ∧ (∃ items : List RlpItem,
        ([202, 128, 128, 128, 128, 128, 128, 128, 128, 193, 192] : List Nat)
            = rlpEncode (.list items)
          ∧ items.length = 9
          ∧ (ttdynEx.nonce = none → items.get? 1 = some (.str []))
          ∧ (ttdynEx.gas = none → items.get? 4 = some (.str []))
          ∧ (ttdynEx.to = none → items.get? 5 = some (.str []))
          ∧ (ttdynEx.value = none → items.get? 6 = some (.str []))
          ∧ (ttdynEx.data = none → items.get? 7 = some (.str []))) :=
  ⟨dynamicfee_arity_nine.1 e1559Ex e1559ExStream rfl,
   dynamicfee_arity_nine.2 ttdynEx none
     [202, 128, 128, 128, 128, 128, 128, 128, 128, 193, 192] rfl⟩

/-- Claim C6: the dynamic-fee base encoding appends exactly these nine
fields in this order: chainId, nonce, maxPriorityFeePerGas, maxFeePerGas,
gas, to, value, data, accessList.  Stated for the rlp_base of eip1559.rs and
the inlined base of the typed_transaction.rs encoder. -/
theorem dynamicfee_field_order :
    (∀ (tx : Eip1559TransactionRequest) (s : RlpStream),
        isResolved tx.to = true →
        tx.rlp_base s = some ⟨s.declared, s.items
          ++ [.str (beBytes tx.chain_id), optItem tx.nonce,
              optItem tx.max_priority_fee_per_gas, optItem tx.max_fee_per_gas,
              optItem tx.gas, toItem tx.to, optItem tx.value,
              dataItem tx.data, encOptAccessList tx.access_list]⟩)
    ∧ (∀ (tx : TypedTx.DynamicFeeTransactionRequest) (cid : Option Nat),
        isResolved tx.to = true →
        tx.rlp cid = some (rlpEncode (.list
          [.str (beBytes (cid.getD 0)), optItem tx.nonce,
           .str (beBytes tx.max_priority_fee_per_gas),
           .str (beBytes tx.max_fee_per_gas), optItem tx.gas, toItem tx.to,
           optItem tx.value, dataItem tx.data, tx.access_list.rlpItem]))) :=
  ⟨fun tx s h => eip1559_rlp_base_resolved tx s h,
   fun tx cid h => ttdyn_rlp_resolved tx cid h⟩

/-- Witness for C6 at concrete all-present requests. -/
theorem dynamicfee_field_order_inst :
    e1559Ex2.rlp_base (RlpStream.new 9) = some ⟨(RlpStream.new 9).declared,
      (RlpStream.new 9).items
        ++ [.str (beBytes e1559Ex2.chain_id), optItem e1559Ex2.nonce,
            optItem e1559Ex2.max_priority_fee_per_gas,
            optItem e1559Ex2.max_fee_per_gas, optItem e1559Ex2.gas,
            toItem e1559Ex2.to, optItem e1559Ex2.value,
            dataItem e1559Ex2.data, encOptAccessList e1559Ex2.access_list]⟩
    ∧ ttdynEx2.rlp (some 7) = some (rlpEncode (.list
        [.str (beBytes ((some 7 : Option Nat).getD 0)), optItem ttdynEx2.nonce,
         .str (beBytes ttdynEx2.max_priority_fee_per_gas),
         .str (beBytes ttdynEx2.max_fee_per_gas), optItem ttdynEx2.gas,
         toItem ttdynEx2.to, optItem ttdynEx2.value, dataItem ttdynEx2.data,
         ttdynEx2.access_list.rlpItem])) :=
  ⟨dynamicfee_field_order.1 e1559Ex2 (RlpStream.new 9) rfl,
   dynamicfee_field_order.2 ttdynEx2 (some 7) rfl⟩

/-- Claim C7: on the TransactionEnvelope of typed_transaction.rs, computing
the signing hash of an access-list variant without a chain id aborts before
hashing, and supplying one succeeds (given the spec's precondition that the
to-field holds no unresolved name). -/
theorem accesslist_sighash_requires_chain_id :
    (∀ (keccak256 : List Nat → List Nat)
        (t : TypedTx.AccessListTransactionRequest),
        TypedTx.TransactionEnvelope.sighash keccak256 (.AccessList t) none
          = none)
    ∧ (∀ (keccak256 : List Nat → List Nat)
        (t : TypedTx.AccessListTransactionRequest) (cid : Nat),
        isResolved t.tx.to = true →
        (TypedTx.TransactionEnvelope.sighash keccak256 (.AccessList t)
          (some cid)).isSome = true) := by
  constructor
  · intro k t
    rfl
  · intro k t cid h
    simp [TypedTx.TransactionEnvelope.sighash, ttal_rlp_resolved t cid h]

/-- Witness for C7 at a concrete access-list request. -/
theorem accesslist_sighash_requires_chain_id_inst :
    TypedTx.TransactionEnvelope.sighash (fun bs => bs) (.AccessList alTxEx)
        none = none
    ∧ (TypedTx.TransactionEnvelope.sighash (fun bs => bs) (.AccessList alTxEx)
        (some 1)).isSome = true :=
  ⟨accesslist_sighash_requires_chain_id.1 (fun bs => bs) alTxEx,
   accesslist_sighash_requires_chain_id.2 (fun bs => bs) alTxEx 1 rfl⟩

/-- Claim C8: the dynamic-fee signed encoder of eip1559.rs computes the
parity with the unchecked subtraction signature.v - chain_id*2 - 35, so any
v below chain_id*2 + 35 aborts by underflow with no bytes, and above the
bound the encode succeeds (to-field resolved) with exactly that difference
in the parity slot. -/
theorem rlp_signed_underflow_guard :
    (∀ (tx : Eip1559TransactionRequest) (sig : Signature),
        sig.v < tx.chain_id * 2 + 35 → tx.rlp_signed_with_buffer sig = none)
    ∧ (∀ (tx : Eip1559TransactionRequest) (sig : Signature),
        tx.chain_id * 2 + 35 ≤ sig.v → isResolved tx.to = true →
        tx.rlp_signed_with_buffer sig = some (rlpEncode (.list
          (eip1559BaseItems tx
            ++ [.str (beBytes (sig.v - tx.chain_id * 2 - 35)),
                .str (beBytes sig.r), .str (beBytes sig.s)])))) :=
  ⟨fun tx sig hv => eip1559_rlp_signed_underflow tx sig hv,
   fun tx sig hv h => eip1559_rlp_signed_resolved tx sig hv h⟩

/-- Witness for C8 at chain id 5: v = 1 underflows, v = 46 encodes parity 1. -/
theorem rlp_signed_underflow_guard_inst :
    e1559Ex.rlp_signed_with_buffer ⟨1, 1, 1⟩ = none
    ∧ e1559Ex.rlp_signed_with_buffer ⟨46, 1, 1⟩ = some (rlpEncode (.list
        (eip1559BaseItems e1559Ex
          ++ [.str (beBytes (46 - e1559Ex.chain_id * 2 - 35)),
              .str (beBytes 1), .str (beBytes 1)]))) :=
  ⟨rlp_signed_underflow_guard.1 e1559Ex ⟨1, 1, 1⟩ (by decide),
   rlp_signed_underflow_guard.2 e1559Ex ⟨46, 1, 1⟩ (by decide) rfl⟩

/-- Claim C9: on the typed_transaction.rs dynamic-fee encoders, an absent
chain id does not abort: the chainId slot encodes zero, so the output is
byte-identical to the encoding with chain id 0, and (with the to-field
resolved) the encode succeeds. -/
theorem missing_chain_id_encodes_zero :
    (∀ (tx : TypedTx.DynamicFeeTransactionRequest),
        tx.rlp none = tx.rlp (some 0))
    ∧ (∀ (tx : TypedTx.DynamicFeeTransactionRequest) (sig : Signature),
        tx.rlp_signed none sig = tx.rlp_signed (some 0) sig)
    ∧ (∀ (tx : TypedTx.DynamicFeeTransactionRequest),
        isResolved tx.to = true → (tx.rlp none).isSome = true)
    ∧ (∀ (tx : TypedTx.DynamicFeeTransactionRequest) (sig : Signature),
        isResolved tx.to = true → (tx.rlp_signed none sig).isSome = true) := by
  refine ⟨fun tx => rfl, fun tx sig => rfl, ?_, ?_⟩
  · intro tx h
    simp [ttdyn_rlp_resolved tx none h]
  · intro tx sig h
    simp [ttdyn_rlp_signed_resolved tx none sig h]

/-- Witness for C9 at a concrete request. -/
theorem missing_chain_id_encodes_zero_inst :
    (ttdynEx.rlp none).isSome = true
    ∧ (ttdynEx.rlp_signed none ⟨1, 1, 1⟩).isSome = true :=
  ⟨missing_chain_id_encodes_zero.2.2.1 ttdynEx rfl,
   missing_chain_id_encodes_zero.2.2.2 ttdynEx ⟨1, 1, 1⟩ rfl⟩

/-- Claim C10: a dynamic-fee request with data absent encodes byte-for-byte
the same as the identical request with data set to the empty byte string —
both contribute the RLP empty-string item, on either dynamic-fee encoder. -/
theorem data_absent_eq_empty :
    (∀ (tx : Eip1559TransactionRequest) (cid : Nat),
        Eip1559TransactionRequest.rlp_with_buffer { tx with data := none } cid
          = Eip1559TransactionRequest.rlp_with_buffer
              { tx with data := some [] } cid)
    ∧ (∀ (tx : TypedTx.DynamicFeeTransactionRequest) (cid : Option Nat),
        TypedTx.DynamicFeeTransactionRequest.rlp { tx with data := none } cid
          = TypedTx.DynamicFeeTransactionRequest.rlp
              { tx with data := some [] } cid) :=
  ⟨fun _ _ => rfl, fun _ _ => rfl⟩

end EthersCore
